import Mathlib

/-!
Shallow embedding of the quiz-game REST backend (src/app.js).

The service stores three flat collections: users, questions and game-runs.
Handlers are modelled as pure functions from the request data and the
current collection state to a response and (where the handler writes) a
new state.  JavaScript objects used as maps (a game run's `responses`)
are modelled as association lists `List (String × Int)` preserving entry
order, mirroring `Object.entries` / `Object.fromEntries`.  The bcrypt
hash comparison is an external primitive and is passed in as a Boolean
function parameter.  A JavaScript exception escaping a handler is made
explicit with a dedicated result constructor.
-/

namespace QuizApp

/-- A question record as stored in the questions collection:
`{ id, question, options, correctAnswer }`. -/
structure Question where
  id : String
  question : String
  options : List String
  correctAnswer : Int
  deriving Repr, DecidableEq

/-- A game run record as stored in the game-runs collection. -/
structure GameRun where
  id : String
  userName : String
  createdAt : Nat
  responses : List (String × Int)
  deriving Repr, DecidableEq

/-- A user record: `userName` plus the bcrypt hash stored as `password`. -/
structure User where
  userName : String
  password : String
  deriving Repr, DecidableEq

/-- The JWT issued by POST /authenticate: payload field `userName` and the
`subject` claim, both set by `jwt.sign` in the handler. -/
structure Token where
  userName : String
  subject : String
  deriving Repr, DecidableEq

/-- The BasicStrategy verify callback: find the user by exact userName
match; if absent fail; otherwise compare the password with bcrypt.
`bcryptCompare plain hash` stands for `bcrypt.compare(plain, hash)`. -/
def basicStrategy (bcryptCompare : String → String → Bool)
    (users : List User) (userName password : String) : Option User :=
  match users.find? (fun u => u.userName == userName) with
  | none => none
  | some u => if bcryptCompare password u.password then some u else none

/-- Outcome of POST /authenticate: 200 with `{ token }`, or passport's 401. -/
inductive AuthResult where
  | ok : Token → AuthResult
  | unauthorized
  deriving Repr, DecidableEq

/-- POST /authenticate: on successful basic auth, sign a JWT whose payload
carries `userName` and whose subject is the same userName. -/
def postAuthenticate (bcryptCompare : String → String → Bool)
    (users : List User) (userName password : String) : AuthResult :=
  match basicStrategy bcryptCompare users userName password with
  | none => .unauthorized
  | some u => .ok { userName := u.userName, subject := u.userName }

/-- A question as sent to clients: the fields `{ id, question, options }`
picked by the GET /questions handlers; `correctAnswer` has no field here. -/
structure PublicQuestion where
  id : String
  question : String
  options : List String
  deriving Repr, DecidableEq

/-- GET /questions: map every catalog entry to its public projection. -/
def getQuestions (questions : List Question) : List PublicQuestion :=
  questions.map (fun q => { id := q.id, question := q.question, options := q.options })

/-- Outcome of GET /questions/:questionId. -/
inductive QuestionLookup where
  | ok : PublicQuestion → QuestionLookup
  | notFound
  deriving Repr, DecidableEq

/-- GET /questions/:questionId: find the question by id; 404 when absent;
otherwise delete `correctAnswer` and send the rest of the record. -/
def getQuestionById (questions : List Question) (questionId : String) : QuestionLookup :=
  match questions.find? (fun q => q.id == questionId) with
  | none => .notFound
  | some q => .ok { id := q.id, question := q.question, options := q.options }

/-- Outcome of POST /game-runs: 200 with `{ runId }`, or passport's 401. -/
inductive CreateRunResult where
  | ok : String → CreateRunResult
  | unauthorized
  deriving Repr, DecidableEq

/-- POST /game-runs: with an authenticated principal, append a new run with
the freshly generated id (`uuidv4()`, passed in), the principal's
userName, the current timestamp (passed in) and empty responses, and
return the new id. -/
def postGameRuns (user : Option String) (gameRuns : List GameRun)
    (freshRunId : String) (now : Nat) : CreateRunResult × List GameRun :=
  match user with
  | none => (.unauthorized, gameRuns)
  | some userName =>
      (.ok freshRunId,
        gameRuns ++
          [{ id := freshRunId, userName := userName, createdAt := now, responses := [] }])

/-- Outcome of gameOwnerMiddleware: 401 / 404 / 403, or pass through with
the found run. -/
inductive OwnerCheck where
  | unauthorized
  | notFound
  | forbidden
  | authorized : GameRun → OwnerCheck
  deriving Repr, DecidableEq

/-- gameOwnerMiddleware: 401 without a principal; find the run by id, 404
when absent; 403 when its userName differs from the principal's. -/
def gameOwnerMiddleware (user : Option String) (gameRuns : List GameRun)
    (runId : String) : OwnerCheck :=
  match user with
  | none => .unauthorized
  | some userName =>
      match gameRuns.find? (fun g => g.id == runId) with
      | none => .notFound
      | some g => if g.userName == userName then .authorized g else .forbidden

/-- A Joi validation failure from putGameRunResponsesSchema. -/
inductive JoiError where
  | unknownKey : String → JoiError
  | invalidValue : String → Int → JoiError
  | tooFewKeys
  deriving Repr, DecidableEq

/-- The value schema `Joi.number().integer().min(0).max(3)` on an integer. -/
def validResponseValue (v : Int) : Bool :=
  0 ≤ v && v ≤ 3

/-- putGameRunResponsesSchema.validate: an object whose keys must all be
valid question ids, whose values must be integers in [0,3], with at
least one entry (`.min(1)`); returns the validated value or the first
violation found. -/
def validateResponsesBody (questionIds : List String)
    (body : List (String × Int)) : Except JoiError (List (String × Int)) :=
  match body.find? (fun p => !(questionIds.contains p.1)) with
  | some p => .error (.unknownKey p.1)
  | none =>
      match body.find? (fun p => !(validResponseValue p.2)) with
      | some p => .error (.invalidValue p.1 p.2)
      | none =>
          if body.length < 1 then .error .tooFewKeys
          else .ok body

/-- Outcome of PUT /game-runs/:runId/responses: a status-only reply
(`res.sendStatus`) or 400 with the validation error in the body. -/
inductive PutResult where
  | statusOnly : Nat → PutResult
  | badRequest : JoiError → PutResult
  deriving Repr, DecidableEq

/-- `gameRun.responses = value` followed by writing the collection back:
the first run whose id matches is mutated in place; the rest unchanged. -/
def setResponsesFirst (runId : String) (value : List (String × Int)) :
    List GameRun → List GameRun
  | [] => []
  | g :: gs =>
      if g.id == runId then { g with responses := value } :: gs
      else g :: setResponsesFirst runId value gs

/-- PUT /game-runs/:runId/responses: JWT auth then gameOwnerMiddleware,
then the handler re-reads the collection, re-finds the run, validates
the body against the schema, and on success replaces the run's
responses wholesale and persists the collection, answering 200. -/
def putGameRunResponses (questions : List Question) (user : Option String)
    (gameRuns : List GameRun) (runId : String) (body : List (String × Int)) :
    PutResult × List GameRun :=
  match gameOwnerMiddleware user gameRuns runId with
  | .unauthorized => (.statusOnly 401, gameRuns)
  | .notFound => (.statusOnly 404, gameRuns)
  | .forbidden => (.statusOnly 403, gameRuns)
  | .authorized _ =>
      match gameRuns.find? (fun g => g.id == runId) with
      | none => (.statusOnly 404, gameRuns)
      | some _ =>
          match validateResponsesBody (questions.map (fun q => q.id)) body with
          | .error e => (.badRequest e, gameRuns)
          | .ok value => (.statusOnly 200, setResponsesFirst runId value gameRuns)

/-- The body sent by GET /game-runs/:runId/results on success. -/
structure ResultsBody where
  id : String
  userName : String
  createdAt : Nat
  responses : List (String × Bool)
  deriving Repr, DecidableEq

/-- Outcome of GET /game-runs/:runId/results.  `thrown` marks the
TypeError raised by `question.correctAnswer` when
`questions.find(...)` returned undefined. -/
inductive ResultsResult where
  | ok : ResultsBody → ResultsResult
  | statusOnly : Nat → ResultsResult
  | thrown
  deriving Repr, DecidableEq

/-- The mapping over `Object.entries(responses)` in the results handler:
each entry looks up its question in the startup catalog and compares
`question.correctAnswer === answerIndex`; an entry whose question id is
not in the catalog makes the handler throw, modelled as `none`. -/
def computeResults (questions : List Question) :
    List (String × Int) → Option (List (String × Bool))
  | [] => some []
  | p :: ps =>
      match questions.find? (fun q => q.id == p.1) with
      | none => none
      | some q =>
          match computeResults questions ps with
          | none => none
          | some rest => some ((p.1, q.correctAnswer == p.2) :: rest)

/-- The grade of a single response entry when its question exists in the
catalog (the value the handler computes for that entry). -/
def gradeOne (questions : List Question) (questionId : String) (answerIndex : Int) : Bool :=
  match questions.find? (fun q => q.id == questionId) with
  | none => false
  | some q => q.correctAnswer == answerIndex

/-- GET /game-runs/:runId/results: JWT auth then gameOwnerMiddleware, then
the handler re-finds the run and sends its identity fields together
with the graded responses map. -/
def getGameRunResults (questions : List Question) (user : Option String)
    (gameRuns : List GameRun) (runId : String) : ResultsResult :=
  match gameOwnerMiddleware user gameRuns runId with
  | .unauthorized => .statusOnly 401
  | .notFound => .statusOnly 404
  | .forbidden => .statusOnly 403
  | .authorized _ =>
      match gameRuns.find? (fun g => g.id == runId) with
      | none => .statusOnly 404
      | some g =>
          match computeResults questions g.responses with
          | none => .thrown
          | some graded =>
              .ok { id := g.id, userName := g.userName,
                    createdAt := g.createdAt, responses := graded }

/-! ### Concrete data used by witnesses and counterexamples -/

def qA : Question :=
  { id := "qa", question := "2 plus 2?", options := ["1", "2", "3", "4"], correctAnswer := 3 }

def qB : Question :=
  { id := "qb", question := "Capital of France?",
    options := ["Paris", "Rome", "Bonn", "Oslo"], correctAnswer := 0 }

def catalogEx : List Question := [qA, qB]

def runIris : GameRun :=
  { id := "r1", userName := "Iris", createdAt := 100, responses := [("qa", 3), ("qb", 1)] }

def runsEx : List GameRun := [runIris]

def runUnknown : GameRun :=
  { id := "r2", userName := "Iris", createdAt := 100, responses := [("zz", 0)] }

def runUnknownMax : GameRun :=
  { id := "r3", userName := "Max", createdAt := 200, responses := [("qa", 1), ("zz", 0)] }

/-! ### Helper lemmas -/

theorem gameOwnerMiddleware_authorized (userName runId : String)
    (gameRuns : List GameRun) (run : GameRun)
    (hfind : gameRuns.find? (fun g => g.id == runId) = some run)
    (howner : run.userName = userName) :
    gameOwnerMiddleware (some userName) gameRuns runId = .authorized run := by
  simp [gameOwnerMiddleware, hfind, howner]

theorem validateResponsesBody_ok (questionIds : List String)
    (body : List (String × Int))
    (hkeys : ∀ p ∈ body, questionIds.contains p.1 = true)
    (hvals : ∀ p ∈ body, validResponseValue p.2 = true)
    (hne : body ≠ []) :
    validateResponsesBody questionIds body = .ok body := by
  have h1 : body.find? (fun p => !(questionIds.contains p.1)) = none := by
    rw [List.find?_eq_none]
    intro p hp
    simpa using hkeys p hp
  have h2 : body.find? (fun p => !(validResponseValue p.2)) = none := by
    rw [List.find?_eq_none]
    intro p hp
    simp [hvals p hp]
  have h3 : ¬ body.length < 1 := by
    simpa [Nat.lt_one_iff, List.length_eq_zero] using hne
  unfold validateResponsesBody
  rw [h1, h2]
  simp [h3]

theorem validateResponsesBody_error (questionIds : List String)
    (body : List (String × Int))
    (hbad : ∃ p ∈ body,
      questionIds.contains p.1 = false ∨ validResponseValue p.2 = false) :
    ∃ e, validateResponsesBody questionIds body = .error e := by
  unfold validateResponsesBody
  cases h1 : body.find? (fun p => !(questionIds.contains p.1)) with
  | some p => exact ⟨.unknownKey p.1, rfl⟩
  | none =>
      cases h2 : body.find? (fun p => !(validResponseValue p.2)) with
      | some p => exact ⟨.invalidValue p.1 p.2, rfl⟩
      | none =>
          exfalso
          obtain ⟨p, hp, hbad⟩ := hbad
          have k1 := List.find?_eq_none.mp h1 p hp
          have k2 := List.find?_eq_none.mp h2 p hp
          simp at k1 k2
          rcases hbad with h | h
          · simp at h; exact h k1
          · rw [h] at k2; exact Bool.false_ne_true k2

theorem setResponsesFirst_find (runId : String) (value : List (String × Int))
    (gameRuns : List GameRun) (run : GameRun)
    (hfind : gameRuns.find? (fun g => g.id == runId) = some run) :
    (setResponsesFirst runId value gameRuns).find? (fun g => g.id == runId) =
      some { run with responses := value } := by
  induction gameRuns with
  | nil => simp at hfind
  | cons g gs ih =>
      cases hgb : (g.id == runId) with
      | true =>
          have hg : g = run := by
            rw [List.find?_cons] at hfind
            simpa [hgb] using hfind
          subst hg
          have hstep : setResponsesFirst runId value (g :: gs) =
              { g with responses := value } :: gs := by
            simp [setResponsesFirst, hgb]
          rw [hstep, List.find?_cons]
          simp [hgb]
      | false =>
          have hfind2 : gs.find? (fun x => x.id == runId) = some run := by
            rw [List.find?_cons] at hfind
            simpa [hgb] using hfind
          have hstep : setResponsesFirst runId value (g :: gs) =
              g :: setResponsesFirst runId value gs := by
            simp [setResponsesFirst, hgb]
          rw [hstep, List.find?_cons]
          simpa [hgb] using ih hfind2

theorem setResponsesFirst_map_id (runId : String) (value : List (String × Int))
    (gameRuns : List GameRun) :
    (setResponsesFirst runId value gameRuns).map (fun g => g.id) =
      gameRuns.map (fun g => g.id) := by
  induction gameRuns with
  | nil => rfl
  | cons g gs ih =>
      by_cases hg : g.id = runId
      · simp [setResponsesFirst, hg]
      · simp [setResponsesFirst, hg, ih]

theorem setResponsesFirst_mem_of_ne (runId : String) (value : List (String × Int))
    (gameRuns : List GameRun) (g : GameRun)
    (hmem : g ∈ setResponsesFirst runId value gameRuns) (hne : g.id ≠ runId) :
    g ∈ gameRuns := by
  induction gameRuns with
  | nil => simp [setResponsesFirst] at hmem
  | cons h hs ih =>
      cases hhb : (h.id == runId) with
      | true =>
          have hstep : setResponsesFirst runId value (h :: hs) =
              { h with responses := value } :: hs := by
            simp [setResponsesFirst, hhb]
          rw [hstep] at hmem
          rcases List.mem_cons.mp hmem with heq | htail
          · exact absurd (by rw [heq]; exact eq_of_beq hhb) hne
          · exact List.mem_cons_of_mem _ htail
      | false =>
          have hstep : setResponsesFirst runId value (h :: hs) =
              h :: setResponsesFirst runId value hs := by
            simp [setResponsesFirst, hhb]
          rw [hstep] at hmem
          rcases List.mem_cons.mp hmem with heq | htail
          · rw [heq]; exact List.mem_cons_self _ _
          · exact List.mem_cons_of_mem _ (ih htail)

theorem setResponsesFirst_idem (runId : String) (value : List (String × Int))
    (gameRuns : List GameRun) :
    setResponsesFirst runId value (setResponsesFirst runId value gameRuns) =
      setResponsesFirst runId value gameRuns := by
  induction gameRuns with
  | nil => rfl
  | cons g gs ih =>
      by_cases hg : g.id = runId
      · simp [setResponsesFirst, hg]
      · simp [setResponsesFirst, hg, ih]

theorem computeResults_of_known (questions : List Question)
    (responses : List (String × Int))
    (h : ∀ p ∈ responses, (questions.find? (fun q => q.id == p.1)).isSome = true) :
    computeResults questions responses =
      some (responses.map (fun p => (p.1, gradeOne questions p.1 p.2))) := by
  induction responses with
  | nil => rfl
  | cons p ps ih =>
      obtain ⟨q, hq⟩ := Option.isSome_iff_exists.mp (h p (List.mem_cons_self _ _))
      have hps := ih (fun r hr => h r (List.mem_cons_of_mem _ hr))
      simp [computeResults, hq, hps, gradeOne]

theorem computeResults_none_of_unknown (questions : List Question)
    (responses : List (String × Int))
    (h : ∃ p ∈ responses, questions.find? (fun q => q.id == p.1) = none) :
    computeResults questions responses = none := by
  induction responses with
  | nil => simp at h
  | cons p ps ih =>
      obtain ⟨r, hr, hrnone⟩ := h
      rcases List.mem_cons.mp hr with heq | htail
      · subst heq
        simp [computeResults, hrnone]
      · cases hq : questions.find? (fun q => q.id == p.1) with
        | none => simp [computeResults, hq]
        | some q => simp [computeResults, hq, ih ⟨r, htail, hrnone⟩]

/-! ### Claim theorems -/

/-- C5: with an authenticated principal, POST /game-runs stores a new game
run whose responses map is empty, whose userName is the token identity and
whose createdAt is the current timestamp, and returns the generated run id
in the response body. -/
theorem create_game_run_spec (userName freshRunId : String) (now : Nat)
    (gameRuns : List GameRun) :
    (postGameRuns (some userName) gameRuns freshRunId now).1 = .ok freshRunId ∧
    ∃ newRun,
      (postGameRuns (some userName) gameRuns freshRunId now).2 = gameRuns ++ [newRun] ∧
      newRun.id = freshRunId ∧ newRun.userName = userName ∧
      newRun.createdAt = now ∧ newRun.responses = [] :=
  ⟨rfl, _, rfl, rfl, rfl, rfl, rfl⟩

/-- C6: for both PUT /game-runs/:runId/responses and
GET /game-runs/:runId/results, an authenticated request gets 404 when no
stored run has the given id, and 403 when the run exists but belongs to a
different userName; in both failure cases the PUT leaves the collection
unchanged. -/
theorem ownership_check_spec (questions : List Question) (userName runId : String)
    (gameRuns : List GameRun) (body : List (String × Int)) :
    (gameRuns.find? (fun g => g.id == runId) = none →
      putGameRunResponses questions (some userName) gameRuns runId body =
        (.statusOnly 404, gameRuns) ∧
      getGameRunResults questions (some userName) gameRuns runId = .statusOnly 404) ∧
    (∀ run, gameRuns.find? (fun g => g.id == runId) = some run →
      run.userName ≠ userName →
      putGameRunResponses questions (some userName) gameRuns runId body =
        (.statusOnly 403, gameRuns) ∧
      getGameRunResults questions (some userName) gameRuns runId = .statusOnly 403) := by
  constructor
  · intro h
    constructor <;>
      simp [putGameRunResponses, getGameRunResults, gameOwnerMiddleware, h]
  · intro run hfind hne
    have hmw : gameOwnerMiddleware (some userName) gameRuns runId = .forbidden := by
      simp [gameOwnerMiddleware, hfind, hne]
    constructor <;> simp [putGameRunResponses, getGameRunResults, hmw]

/-- Witness for C6 at concrete inputs: unknown run id gives 404 on both
operations; another user's valid run id gives 403 on both. -/
theorem ownership_check_spec_witness :
    (putGameRunResponses catalogEx (some "Iris") runsEx "nope" [] =
        (.statusOnly 404, runsEx) ∧
      getGameRunResults catalogEx (some "Iris") runsEx "nope" = .statusOnly 404) ∧
    (putGameRunResponses catalogEx (some "Max") runsEx "r1" [] =
        (.statusOnly 403, runsEx) ∧
      getGameRunResults catalogEx (some "Max") runsEx "r1" = .statusOnly 403) := by
  constructor
  · exact (ownership_check_spec catalogEx "Iris" "nope" runsEx []).1 rfl
  · exact (ownership_check_spec catalogEx "Max" "r1" runsEx []).2 runIris rfl (by decide)

/-- C7: GET /questions returns all questions projected to exactly
id, question and options (the return type has no correctAnswer field),
preserving catalog order; GET /questions/:id returns the found question
with correctAnswer omitted, or 404 when no question has that id. -/
theorem question_catalog_spec (questions : List Question) (questionId : String) :
    getQuestions questions =
      questions.map (fun q =>
        { id := q.id, question := q.question, options := q.options }) ∧
    (∀ q, questions.find? (fun v => v.id == questionId) = some q →
      getQuestionById questions questionId =
        .ok { id := q.id, question := q.question, options := q.options }) ∧
    (questions.find? (fun v => v.id == questionId) = none →
      getQuestionById questions questionId = .notFound) := by
  refine ⟨rfl, ?_, ?_⟩
  · intro q hq
    simp [getQuestionById, hq]
  · intro h
    simp [getQuestionById, h]

/-- Witness for C7 at concrete inputs: a known id returns the sanitized
question; an unknown id returns 404. -/
theorem question_catalog_spec_witness :
    getQuestionById catalogEx "qa" =
      .ok { id := "qa", question := "2 plus 2?", options := ["1", "2", "3", "4"] } ∧
    getQuestionById catalogEx "zz" = .notFound := by
  constructor
  · exact (question_catalog_spec catalogEx "qa").2.1 qA rfl
  · exact (question_catalog_spec catalogEx "zz").2.2 rfl

/-- C8: with correct credentials POST /authenticate answers 200 with a
token whose payload userName and subject claim both equal the supplied
username; a wrong password answers 401; an unknown username answers the
same 401 (no user-enumeration signal). -/
theorem authenticate_spec (bcryptCompare : String → String → Bool)
    (users : List User) (userName password : String) :
    (∀ u, users.find? (fun v => v.userName == userName) = some u →
      bcryptCompare password u.password = true →
      postAuthenticate bcryptCompare users userName password =
        .ok { userName := userName, subject := userName }) ∧
    (∀ u, users.find? (fun v => v.userName == userName) = some u →
      bcryptCompare password u.password = false →
      postAuthenticate bcryptCompare users userName password = .unauthorized) ∧
    (users.find? (fun v => v.userName == userName) = none →
      postAuthenticate bcryptCompare users userName password = .unauthorized) := by
  refine ⟨?_, ?_, ?_⟩
  · intro u hu hbc
    have huser : u.userName = userName := by simpa using List.find?_some hu
    simp [postAuthenticate, basicStrategy, hu, hbc, huser]
  · intro u hu hbc
    simp [postAuthenticate, basicStrategy, hu, hbc]
  · intro h
    simp [postAuthenticate, basicStrategy, h]

/-- Witness for C8 at concrete inputs (hash comparison modelled as string
equality): correct credentials yield the token carrying the username;
wrong password and unknown username both yield the identical 401. -/
theorem authenticate_spec_witness :
    postAuthenticate (fun plain hash => plain == hash)
        [{ userName := "Iris", password := "123" }] "Iris" "123" =
      .ok { userName := "Iris", subject := "Iris" } ∧
    postAuthenticate (fun plain hash => plain == hash)
        [{ userName := "Iris", password := "123" }] "Iris" "999" = .unauthorized ∧
    postAuthenticate (fun plain hash => plain == hash)
        [{ userName := "Iris", password := "123" }] "Bob" "123" = .unauthorized := by
  refine ⟨?_, ?_, ?_⟩
  · exact (authenticate_spec _ _ "Iris" "123").1
      { userName := "Iris", password := "123" } rfl rfl
  · exact (authenticate_spec _ _ "Iris" "999").2.1
      { userName := "Iris", password := "123" } rfl rfl
  · exact (authenticate_spec _ _ "Bob" "123").2.2 rfl

/-- C10: submitting the empty response map to
PUT /game-runs/:runId/responses on an owned run is rejected with 400
(the schema's min(1) constraint) and the collection is unchanged. -/
theorem empty_submission_rejected (questions : List Question)
    (userName runId : String) (gameRuns : List GameRun) (run : GameRun)
    (hfind : gameRuns.find? (fun g => g.id == runId) = some run)
    (howner : run.userName = userName) :
    putGameRunResponses questions (some userName) gameRuns runId [] =
      (.badRequest .tooFewKeys, gameRuns) := by
  have hmw := gameOwnerMiddleware_authorized userName runId gameRuns run hfind howner
  simp [putGameRunResponses, hmw, hfind, validateResponsesBody]

/-- Witness for C10 at concrete inputs. -/
theorem empty_submission_rejected_witness :
    putGameRunResponses catalogEx (some "Iris") runsEx "r1" [] =
      (.badRequest .tooFewKeys, runsEx) :=
  empty_submission_rejected catalogEx "Iris" "r1" runsEx runIris rfl rfl

/-- C1: on an owned run whose responses only mention catalog question ids,
GET /game-runs/:runId/results returns the run's id, userName and
createdAt together with a map over exactly the same keys, where each key
maps to true exactly when the submitted index equals that question's
correctAnswer. -/
theorem results_grading_spec (questions : List Question)
    (userName runId : String) (gameRuns : List GameRun) (run : GameRun)
    (hfind : gameRuns.find? (fun g => g.id == runId) = some run)
    (howner : run.userName = userName)
    (hknown : ∀ p ∈ run.responses,
      (questions.find? (fun q => q.id == p.1)).isSome = true) :
    getGameRunResults questions (some userName) gameRuns runId =
      .ok { id := run.id, userName := run.userName, createdAt := run.createdAt,
            responses :=
              run.responses.map (fun p => (p.1, gradeOne questions p.1 p.2)) } ∧
    (run.responses.map (fun p => (p.1, gradeOne questions p.1 p.2))).map Prod.fst =
      run.responses.map Prod.fst ∧
    ∀ p ∈ run.responses, ∀ q, questions.find? (fun v => v.id == p.1) = some q →
      gradeOne questions p.1 p.2 = (q.correctAnswer == p.2) := by
  have hmw := gameOwnerMiddleware_authorized userName runId gameRuns run hfind howner
  have hcr := computeResults_of_known questions run.responses hknown
  refine ⟨?_, ?_, ?_⟩
  · simp [getGameRunResults, hmw, hfind, hcr]
  · simp [List.map_map, Function.comp]
  · intro p hp q hq
    simp [gradeOne, hq]

/-- Witness for C1 at concrete inputs: a run answering question qa
correctly and qb incorrectly is graded to true for qa and false for qb,
alongside the run's identity fields. -/
theorem results_grading_spec_witness :
    getGameRunResults catalogEx (some "Iris") runsEx "r1" =
      .ok { id := "r1", userName := "Iris", createdAt := 100,
            responses := [("qa", true), ("qb", false)] } := by
  have h := (results_grading_spec catalogEx "Iris" "r1" runsEx runIris
    rfl rfl (by decide)).1
  rw [h]
  rfl

/-- C2 counterexample: on a run whose responses contain the unknown
question id zz, the results computation throws (the handler reads
correctAnswer of undefined) instead of emitting the entry as false, so
the handler does raise an error. -/
theorem results_unknown_counterexample :
    getGameRunResults catalogEx (some "Iris") [runUnknown] "r2" = .thrown ∧
    getGameRunResults catalogEx (some "Iris") [runUnknown] "r2" ≠
      .ok { id := "r2", userName := "Iris", createdAt := 100,
            responses := [("zz", false)] } := by
  constructor
  · rfl
  · decide

/-- C2 amended: if any entry of an owned run's responses has a question id
absent from the catalog, GET /game-runs/:runId/results raises a TypeError
(the thrown outcome) rather than emitting that entry as false. -/
theorem results_throw_on_unknown (questions : List Question)
    (userName runId : String) (gameRuns : List GameRun) (run : GameRun)
    (hfind : gameRuns.find? (fun g => g.id == runId) = some run)
    (howner : run.userName = userName)
    (hunknown : ∃ p ∈ run.responses,
      questions.find? (fun q => q.id == p.1) = none) :
    getGameRunResults questions (some userName) gameRuns runId = .thrown := by
  have hmw := gameOwnerMiddleware_authorized userName runId gameRuns run hfind howner
  have hcr := computeResults_none_of_unknown questions run.responses hunknown
  simp [getGameRunResults, hmw, hfind, hcr]

/-- Witness for the amended C2 at concrete inputs: one known and one
unknown question id in the responses make the handler throw. -/
theorem results_throw_on_unknown_witness :
    getGameRunResults catalogEx (some "Max") [runUnknownMax] "r3" = .thrown :=
  results_throw_on_unknown catalogEx "Max" "r3" [runUnknownMax] runUnknownMax
    rfl rfl (by decide)

/-- C3: on an owned run, a submission containing an unknown question id or
a value outside [0,3] is answered with 400 carrying the validation error,
and the stored collection is left unchanged. -/
theorem invalid_submission_rejected (questions : List Question)
    (userName runId : String) (gameRuns : List GameRun) (run : GameRun)
    (body : List (String × Int))
    (hfind : gameRuns.find? (fun g => g.id == runId) = some run)
    (howner : run.userName = userName)
    (hbad : ∃ p ∈ body,
      (questions.map (fun q => q.id)).contains p.1 = false ∨
      validResponseValue p.2 = false) :
    ∃ e, putGameRunResponses questions (some userName) gameRuns runId body =
      (.badRequest e, gameRuns) := by
  have hmw := gameOwnerMiddleware_authorized userName runId gameRuns run hfind howner
  obtain ⟨e, he⟩ :=
    validateResponsesBody_error (questions.map (fun q => q.id)) body hbad
  exact ⟨e, by simp [putGameRunResponses, hmw, hfind, he]⟩

/-- Witness for C3 at concrete inputs: an out-of-range value and an
unknown question id are each rejected with 400, leaving the collection
unchanged. -/
theorem invalid_submission_rejected_witness :
    (∃ e, putGameRunResponses catalogEx (some "Iris") runsEx "r1" [("qa", 9)] =
      (.badRequest e, runsEx)) ∧
    (∃ e, putGameRunResponses catalogEx (some "Iris") runsEx "r1" [("zz", 0)] =
      (.badRequest e, runsEx)) := by
  constructor
  · exact invalid_submission_rejected catalogEx "Iris" "r1" runsEx runIris
      [("qa", 9)] rfl rfl (by decide)
  · exact invalid_submission_rejected catalogEx "Iris" "r1" runsEx runIris
      [("zz", 0)] rfl rfl (by decide)

/-- C4: on an owned run, a valid submission is answered with a status-only
200, the run's responses are wholesale replaced by the submitted mapping
(old keys do not survive), the collection keeps the same runs in the same
order (same id sequence), and runs with other ids are unchanged. -/
theorem valid_submission_replaces (questions : List Question)
    (userName runId : String) (gameRuns : List GameRun) (run : GameRun)
    (body : List (String × Int))
    (hfind : gameRuns.find? (fun g => g.id == runId) = some run)
    (howner : run.userName = userName)
    (hkeys : ∀ p ∈ body, (questions.map (fun q => q.id)).contains p.1 = true)
    (hvals : ∀ p ∈ body, validResponseValue p.2 = true)
    (hne : body ≠ []) :
    putGameRunResponses questions (some userName) gameRuns runId body =
      (.statusOnly 200, setResponsesFirst runId body gameRuns) ∧
    (setResponsesFirst runId body gameRuns).find? (fun g => g.id == runId) =
      some { run with responses := body } ∧
    (setResponsesFirst runId body gameRuns).map (fun g => g.id) =
      gameRuns.map (fun g => g.id) ∧
    ∀ g ∈ setResponsesFirst runId body gameRuns, g.id ≠ runId → g ∈ gameRuns := by
  have hmw := gameOwnerMiddleware_authorized userName runId gameRuns run hfind howner
  have hval :=
    validateResponsesBody_ok (questions.map (fun q => q.id)) body hkeys hvals hne
  refine ⟨?_, ?_, ?_, ?_⟩
  · simp [putGameRunResponses, hmw, hfind, hval]
  · exact setResponsesFirst_find runId body gameRuns run hfind
  · exact setResponsesFirst_map_id runId body gameRuns
  · intro g hg hgne
    exact setResponsesFirst_mem_of_ne runId body gameRuns g hg hgne

/-- Witness for C4 at concrete inputs: submitting only qb on a run that
previously answered qa and qb replaces the whole map, so the old qa entry
is gone and the call answers a status-only 200. -/
theorem valid_submission_replaces_witness :
    putGameRunResponses catalogEx (some "Iris") runsEx "r1" [("qb", 0)] =
      (.statusOnly 200,
        [{ id := "r1", userName := "Iris", createdAt := 100,
           responses := [("qb", 0)] }]) := by
  have h := (valid_submission_replaces catalogEx "Iris" "r1" runsEx runIris
    [("qb", 0)] rfl rfl (by decide) (by decide) (by decide)).1
  rw [h]
  rfl

/-- C9: on an owned run, repeating an identical valid submission twice
yields the same response and the same stored collection as performing it
once, and the results queried afterwards coincide. -/
theorem submission_idempotent (questions : List Question)
    (userName runId : String) (gameRuns : List GameRun) (run : GameRun)
    (body : List (String × Int))
    (hfind : gameRuns.find? (fun g => g.id == runId) = some run)
    (howner : run.userName = userName)
    (hkeys : ∀ p ∈ body, (questions.map (fun q => q.id)).contains p.1 = true)
    (hvals : ∀ p ∈ body, validResponseValue p.2 = true)
    (hne : body ≠ []) :
    putGameRunResponses questions (some userName)
        (putGameRunResponses questions (some userName) gameRuns runId body).2
        runId body =
      putGameRunResponses questions (some userName) gameRuns runId body ∧
    getGameRunResults questions (some userName)
        (putGameRunResponses questions (some userName)
          (putGameRunResponses questions (some userName) gameRuns runId body).2
          runId body).2 runId =
      getGameRunResults questions (some userName)
        (putGameRunResponses questions (some userName) gameRuns runId body).2
        runId := by
  have hmw := gameOwnerMiddleware_authorized userName runId gameRuns run hfind howner
  have hval :=
    validateResponsesBody_ok (questions.map (fun q => q.id)) body hkeys hvals hne
  have h1 : putGameRunResponses questions (some userName) gameRuns runId body =
      (.statusOnly 200, setResponsesFirst runId body gameRuns) := by
    simp [putGameRunResponses, hmw, hfind, hval]
  have hfind1 := setResponsesFirst_find runId body gameRuns run hfind
  have hmw1 := gameOwnerMiddleware_authorized userName runId
    (setResponsesFirst runId body gameRuns) { run with responses := body }
    hfind1 howner
  have h2 : putGameRunResponses questions (some userName)
      (setResponsesFirst runId body gameRuns) runId body =
      (.statusOnly 200,
        setResponsesFirst runId body (setResponsesFirst runId body gameRuns)) := by
    simp [putGameRunResponses, hmw1, hfind1, hval]
  have hidem := setResponsesFirst_idem runId body gameRuns
  constructor
  · simp [h1, h2, hidem]
  · simp [h1, h2, hidem]

/-- Witness for C9 at concrete inputs: submitting the same single answer
twice gives the same response and state as submitting it once. -/
theorem submission_idempotent_witness :
    putGameRunResponses catalogEx (some "Iris")
        (putGameRunResponses catalogEx (some "Iris") runsEx "r1" [("qa", 2)]).2
        "r1" [("qa", 2)] =
      putGameRunResponses catalogEx (some "Iris") runsEx "r1" [("qa", 2)] :=
  (submission_idempotent catalogEx "Iris" "r1" runsEx runIris [("qa", 2)]
    rfl rfl (by decide) (by decide) (by decide)).1

end QuizApp
